import Mathlib

/-!
Shallow embedding of `src/log/stdout_logger_cpp_init` (stdout_logger_init.h /
stdout_logger_init.cpp): a fluent builder `StdoutLoggerBuilder` holding five
independently optional settings, whose terminal operation
`SetAsDefaultLogger` encodes them as nullable-pointer arguments for a single
synchronous boundary call `set_default_logger`.

Modelling choices:
- C++ `std::string` (a byte sequence) is modelled as `List Nat`, one entry per
  byte; a default-constructed `std::optional` is `none`.
- Storage backing the boundary pointers is modelled explicitly: `Val` values at
  fixed addresses, with `frameMem b` the caller-owned storage that is live at
  the moment `set_default_logger` runs. Crucially, the local copy
  `auto value{context_.value()};` in the source is scoped to the `if` block
  (stdout_logger_init.cpp lines 60-65) and is destroyed at the closing brace,
  before the call at line 72 — so its storage is NOT part of `frameMem`, even
  though its address has been stored into `context_ptr`.
- `BoundaryCall` is the callee-facing argument record: the four bool/enum
  positions carry the dereferenced value of the live builder member they point
  at (`none` for a null pointer) — those members outlive the call, so this
  deref view is well-defined; the context position carries the raw address
  passed (`none` for null), because what that address holds at call time is a
  question about memory, answered through `frameMem`/`readMem`.
- `receiverContextCopy` models the receiving contract's copy of the context
  bytes during the call: reading a non-zero number of bytes through an address
  that no live storage backs is undefined behavior, returned as
  `CopyResult.undefinedRead`.
-/

namespace StdoutLoggerInit

/-- Severity of a log message; `enum class LogLevel` from stdout_logger_init.h.
The constructor order matches the C++ declaration order, so the underlying
ordinal of each enumerator is its position here. -/
inductive LogLevel
  | Off
  | Fatal
  | Error
  | Warn
  | Info
  | Debug
  | Verbose
deriving DecidableEq, Repr, Fintype

/-- Underlying integral value of the C++ `enum class LogLevel` enumerator
(first enumerator is 0, each next one more). -/
def LogLevel.ordinal : LogLevel → Nat
  | .Off => 0
  | .Fatal => 1
  | .Error => 2
  | .Warn => 3
  | .Info => 4
  | .Debug => 5
  | .Verbose => 6

/-- Builder state: the five `std::optional` private members of
`StdoutLoggerBuilder` (stdout_logger_init.h, lines 72-78). -/
structure StdoutLoggerBuilder where
  context_ : Option (List Nat)
  show_module_ : Option Bool
  show_file_ : Option Bool
  show_line_ : Option Bool
  log_level_ : Option LogLevel
deriving DecidableEq, Repr

namespace StdoutLoggerBuilder

/-- Default-constructed builder: every `std::optional` member is empty. -/
def new : StdoutLoggerBuilder :=
  { context_ := none
    show_module_ := none
    show_file_ := none
    show_line_ := none
    log_level_ := none }

/-- `StdoutLoggerBuilder::Context`: stores the context and returns the builder. -/
def Context (b : StdoutLoggerBuilder) (context : List Nat) : StdoutLoggerBuilder :=
  { b with context_ := some context }

/-- `StdoutLoggerBuilder::ShowModule`: stores the toggle and returns the builder. -/
def ShowModule (b : StdoutLoggerBuilder) (show_module : Bool) : StdoutLoggerBuilder :=
  { b with show_module_ := some show_module }

/-- `StdoutLoggerBuilder::ShowFile`: stores the toggle and returns the builder. -/
def ShowFile (b : StdoutLoggerBuilder) (show_file : Bool) : StdoutLoggerBuilder :=
  { b with show_file_ := some show_file }

/-- `StdoutLoggerBuilder::ShowLine`: stores the toggle and returns the builder. -/
def ShowLine (b : StdoutLoggerBuilder) (show_line : Bool) : StdoutLoggerBuilder :=
  { b with show_line_ := some show_line }

/-- `StdoutLoggerBuilder::LogLevel`: stores the severity and returns the builder. -/
def LogLevel (b : StdoutLoggerBuilder) (log_level : StdoutLoggerInit.LogLevel) :
    StdoutLoggerBuilder :=
  { b with log_level_ := some log_level }

end StdoutLoggerBuilder

/-- Value stored in one piece of storage that can back a boundary pointer: a
byte buffer, a `bool` member, or a `LogLevel` member. -/
inductive Val
  | bytes (bs : List Nat)
  | boolean (v : Bool)
  | level (l : LogLevel)
deriving DecidableEq, Repr

/-- Address of the builder member `show_module_.value()`. -/
def addr_show_module : Nat := 1

/-- Address of the builder member `show_file_.value()`. -/
def addr_show_file : Nat := 2

/-- Address of the builder member `show_line_.value()`. -/
def addr_show_line : Nat := 3

/-- Address of the builder member `log_level_.value()`. -/
def addr_log_level : Nat := 4

/-- Address of the local variable `value` (the block-scoped copy of
`context_.value()`) inside the `if` block of `SetAsDefaultLogger`. The
address can be stored and passed around after the block ends; whether live
storage still backs it is a separate question answered by `readMem` on the
memory at hand. -/
def addr_value_local : Nat := 5

/-- Read of an address in storage; `none` when no live storage backs the
address. -/
def readMem (m : List (Nat × Val)) (a : Nat) : Option Val :=
  (m.find? (fun p => p.1 == a)).map Prod.snd

/-- Arguments of the boundary call as the callee receives them. The four
bool/enum positions are the deref view of the live builder members they
address: `none` exactly when the C++ side passes a null pointer, and the
member's value otherwise (those members outlive the call, so this view is
well-defined). The context position is the raw address passed — `none` for
null — because the storage it addresses may no longer be live at call time;
what a read through it yields is decided against `frameMem` via `readMem`. -/
structure BoundaryCall where
  context_ptr : Option Nat
  context_size : Nat
  show_module : Option Bool
  show_file : Option Bool
  show_line : Option Bool
  log_level : Option LogLevel
deriving DecidableEq, Repr

/-- `StdoutLoggerBuilder::SetAsDefaultLogger` (stdout_logger_init.cpp, lines
56-73): `context_ptr`/`context_size` start as null/0; when `context_` is
engaged, a block-scoped local copy `value` is made, `context_ptr` is set to
`value.c_str()` (here: the address `addr_value_local`) and `context_size` to
`value.size()` — and `value` is destroyed at the end of the `if` block,
before the call. Each of the four remaining pointers is the address of the
engaged optional member's value, or null; their deref view is the member's
value. The function ends by making the single call `set_default_logger(...)`
with these arguments. -/
def StdoutLoggerBuilder.SetAsDefaultLogger (b : StdoutLoggerBuilder) : BoundaryCall :=
  let context_pair : Option Nat × Nat :=
    match b.context_ with
    | none => (none, 0)
    | some c =>
      let value := c
      (some addr_value_local, value.length)
  { context_ptr := context_pair.1
    context_size := context_pair.2
    show_module := b.show_module_
    show_file := b.show_file_
    show_line := b.show_line_
    log_level := b.log_level_ }

/-- Caller-owned storage live at the moment `set_default_logger` runs: only
the engaged optional members of the builder, which outlive the call. The
local copy `value` of the context is NOT here: it is scoped to the `if`
block at stdout_logger_init.cpp lines 60-65 and destroyed at the closing
brace, before the call at line 72, so no live storage backs
`addr_value_local` during the call. -/
def frameMem (b : StdoutLoggerBuilder) : List (Nat × Val) :=
  (match b.show_module_ with
   | some v => [(addr_show_module, Val.boolean v)]
   | none => []) ++
  (match b.show_file_ with
   | some v => [(addr_show_file, Val.boolean v)]
   | none => []) ++
  (match b.show_line_ with
   | some v => [(addr_show_line, Val.boolean v)]
   | none => []) ++
  (match b.log_level_ with
   | some l => [(addr_log_level, Val.level l)]
   | none => [])

/-- Raw pointer arguments of `set_default_logger` in the fully address-level
view: each pointer position is null (`none`) or an address. -/
structure CallArgs where
  context_ptr : Option Nat
  context_size : Nat
  show_module : Option Nat
  show_file : Option Nat
  show_line : Option Nat
  log_level : Option Nat
deriving DecidableEq, Repr

/-- Address-level view of `SetAsDefaultLogger`: the raw pointers it passes.
`context_ptr` is `value.c_str()` (the address of the block-scoped local
copy) when `context_` is engaged, else null; each other pointer is the
address of the engaged member's value, else null (stdout_logger_init.cpp,
lines 58-72). -/
def callArgs (b : StdoutLoggerBuilder) : CallArgs :=
  let context_pair : Option Nat × Nat :=
    match b.context_ with
    | none => (none, 0)
    | some c => (some addr_value_local, c.length)
  { context_ptr := context_pair.1
    context_size := context_pair.2
    show_module := if b.show_module_.isSome then some addr_show_module else none
    show_file := if b.show_file_.isSome then some addr_show_file else none
    show_line := if b.show_line_.isSome then some addr_show_line else none
    log_level := if b.log_level_.isSome then some addr_log_level else none }

/-- Outcome of the receiving contract's copy of the context bytes during the
call. -/
inductive CopyResult
  | noContext
  | copied (bs : List Nat)
  | undefinedRead
deriving DecidableEq, Repr

/-- Copy the receiving contract performs during the call: with a null context
pointer nothing is copied; with a non-null pointer it reads `context_size`
bytes from the addressed storage. Copying zero bytes touches no memory and
yields the empty sequence; reading one or more bytes through an address that
no live storage backs is undefined behavior. -/
def receiverContextCopy (m : List (Nat × Val)) (c : BoundaryCall) : CopyResult :=
  match c.context_ptr with
  | none => CopyResult.noContext
  | some a =>
    if c.context_size = 0 then
      CopyResult.copied []
    else
      match readMem m a with
      | some (Val.bytes bs) => CopyResult.copied (List.take c.context_size bs)
      | _ => CopyResult.undefinedRead

/-- State-threading translation of `SetAsDefaultLogger`: the method body reads
the members `context_`, `show_module_`, `show_file_`, `show_line_` and
`log_level_` but contains no assignment to any member, so the `this` state it
leaves behind is the state it received. -/
def StdoutLoggerBuilder.SetAsDefaultLoggerSt (this : StdoutLoggerBuilder) :
    StdoutLoggerBuilder × BoundaryCall :=
  let context_pair : Option Nat × Nat :=
    match this.context_ with
    | none => (none, 0)
    | some c =>
      let value := c
      (some addr_value_local, value.length)
  (this,
   { context_ptr := context_pair.1
     context_size := context_pair.2
     show_module := this.show_module_
     show_file := this.show_file_
     show_line := this.show_line_
     log_level := this.log_level_ })

/-- Access to an engaged `std::optional` via `.value()`: raises
`bad_optional_access` when the optional is empty. The C++ code only ever
calls `.value()` behind a check that the optional is engaged. -/
def optValue {α : Type} : Option α → Except String α
  | some a => Except.ok a
  | none => Except.error "bad_optional_access"

/-- Fallible-access translation of `SetAsDefaultLogger`: every `.value()`
call of the C++ body goes through `optValue`, guarded exactly as in the
source (`if (context_)` and the three conditional operators), so an error is
possible in the model only if a guard failed to protect a `.value()`. -/
def StdoutLoggerBuilder.SetAsDefaultLoggerE (b : StdoutLoggerBuilder) :
    Except String BoundaryCall := do
  let context_pair : Option Nat × Nat ←
    if b.context_.isSome then do
      let value ← optValue b.context_
      pure (some addr_value_local, value.length)
    else
      pure (none, 0)
  let show_module : Option Bool ←
    if b.show_module_.isSome then do
      let v ← optValue b.show_module_
      pure (some v)
    else
      pure none
  let show_file : Option Bool ←
    if b.show_file_.isSome then do
      let v ← optValue b.show_file_
      pure (some v)
    else
      pure none
  let show_line : Option Bool ←
    if b.show_line_.isSome then do
      let v ← optValue b.show_line_
      pure (some v)
    else
      pure none
  let log_level : Option LogLevel ←
    if b.log_level_.isSome then do
      let l ← optValue b.log_level_
      pure (some l)
    else
      pure none
  pure
    { context_ptr := context_pair.1
      context_size := context_pair.2
      show_module := show_module
      show_file := show_file
      show_line := show_line
      log_level := log_level }

/-- One call to a (fluent) setter of the builder, with its argument. -/
inductive SetterOp
  | context (t : List Nat)
  | showModule (v : Bool)
  | showFile (v : Bool)
  | showLine (v : Bool)
  | logLevel (l : LogLevel)
deriving DecidableEq, Repr

/-- Effect of one setter call on the builder state. -/
def applySetter (op : SetterOp) (b : StdoutLoggerBuilder) : StdoutLoggerBuilder :=
  match op with
  | .context t => b.Context t
  | .showModule v => b.ShowModule v
  | .showFile v => b.ShowFile v
  | .showLine v => b.ShowLine v
  | .logLevel l => b.LogLevel l

/-- Effect of a sequence of setter calls, left to right. -/
def runSetters (ops : List SetterOp) (b : StdoutLoggerBuilder) : StdoutLoggerBuilder :=
  ops.foldl (fun b op => applySetter op b) b

/-- Byte sequence of the string literal "ABCD" used in
examples/log_cpp_init/src/main.cpp. -/
def bytesABCD : List Nat := [65, 66, 67, 68]

/-- Builder state of the example program `main` in
examples/log_cpp_init/src/main.cpp right before finalization:
`Context("ABCD").ShowModule(true).ShowFile(true).ShowLine(true)` on a
default-constructed builder. -/
def exampleMainBuilder : StdoutLoggerBuilder :=
  (((StdoutLoggerBuilder.new.Context bytesABCD).ShowModule
      true).ShowFile true).ShowLine true

/-- Boundary call made by the example program. -/
def exampleMainCall : BoundaryCall :=
  exampleMainBuilder.SetAsDefaultLogger

/-- Claim C1 evidence: with the context set to "ABCD", the boundary call
passes a non-null context pointer — the address of the block-scoped local
copy `value` — but no live storage backs that address at the moment of the
call, because `value` was destroyed at the end of its `if` block before
`set_default_logger` runs; the pointer dangles for the whole call, contrary
to the claimed validity. The member-backed toggle pointer, by contrast, is
live. -/
theorem C1_context_pointer_dangles :
    (callArgs (StdoutLoggerBuilder.new.Context bytesABCD)).context_ptr =
      some addr_value_local ∧
    readMem (frameMem (StdoutLoggerBuilder.new.Context bytesABCD))
      addr_value_local = none ∧
    (callArgs ((StdoutLoggerBuilder.new.Context bytesABCD).ShowModule
      true)).context_ptr = some addr_value_local ∧
    readMem (frameMem ((StdoutLoggerBuilder.new.Context bytesABCD).ShowModule
      true)) addr_value_local = none ∧
    readMem (frameMem ((StdoutLoggerBuilder.new.Context bytesABCD).ShowModule
      true)) addr_show_module = some (Val.boolean true) := by
  refine ⟨rfl, rfl, rfl, rfl, rfl⟩

/-- Claim C2 counterexample: configuring the context to the empty text puts
context in the configured set S, yet the boundary call carries a zero length
for it, refuting the claim that context in S always comes with a non-zero
length. -/
theorem C2_counterexample :
    ((StdoutLoggerBuilder.new.Context []).context_).isSome = true ∧
    (((StdoutLoggerBuilder.new.Context
      []).SetAsDefaultLogger).context_ptr).isSome = true ∧
    (((StdoutLoggerBuilder.new.Context
      []).SetAsDefaultLogger).context_size) = 0 := by
  refine ⟨rfl, rfl, rfl⟩

/-- C2 (amended): for every builder state, the boundary call carries a
non-null pointer exactly for the configured fields — null pointers for the
rest — and the context length equals the byte length of the configured text
(so it is 0 when the context is unset, and also when it is set to the empty
text). -/
theorem C2_set_unset_encoding (b : StdoutLoggerBuilder) :
    ((b.SetAsDefaultLogger).context_ptr).isSome = (b.context_).isSome ∧
    (b.SetAsDefaultLogger).context_size =
      (match b.context_ with
       | some t => t.length
       | none => 0) ∧
    ((b.SetAsDefaultLogger).show_module).isSome = (b.show_module_).isSome ∧
    ((b.SetAsDefaultLogger).show_file).isSome = (b.show_file_).isSome ∧
    ((b.SetAsDefaultLogger).show_line).isSome = (b.show_line_).isSome ∧
    ((b.SetAsDefaultLogger).log_level).isSome = (b.log_level_).isSome := by
  obtain ⟨c, sm, sf, sl, ll⟩ := b
  cases c <;> simp [StdoutLoggerBuilder.SetAsDefaultLogger]

/-- Claim C3 evidence: setting the context to the non-empty text "ABCD" and
finalizing yields a call whose length is right, but the receiver's copy
during the call reads those 4 bytes through the address of the destroyed
block-scoped local copy — an undefined read, not the bytes of T — so the
round-trip does not hold for non-empty T. (With the empty text zero bytes
are copied and the copy is the empty sequence.) -/
theorem C3_round_trip_undefined :
    ((StdoutLoggerBuilder.new.Context
      bytesABCD).SetAsDefaultLogger).context_size = 4 ∧
    receiverContextCopy
      (frameMem (StdoutLoggerBuilder.new.Context bytesABCD))
      ((StdoutLoggerBuilder.new.Context bytesABCD).SetAsDefaultLogger) =
      CopyResult.undefinedRead ∧
    receiverContextCopy
      (frameMem (StdoutLoggerBuilder.new.Context []))
      ((StdoutLoggerBuilder.new.Context []).SetAsDefaultLogger) =
      CopyResult.copied [] := by
  refine ⟨rfl, rfl, rfl⟩

/-- C4: finalizing a default-constructed builder with no setter called passes
all five pointer arguments as null and a context length of 0. -/
theorem C4_fresh_builder_all_null :
    StdoutLoggerBuilder.new.SetAsDefaultLogger =
      { context_ptr := none
        context_size := 0
        show_module := none
        show_file := none
        show_line := none
        log_level := none } := rfl

/-- C5: for each of the 7 severity levels, setting the level and finalizing
passes a non-null severity pointer dereferencing to that level; the level's
stable ordinal is Off=0, Fatal=1, Error=2, Warn=3, Info=4, Debug=5,
Verbose=6, and the level-to-ordinal mapping is a bijection between the 7
levels and the ordinals 0..6. -/
theorem C5_severity_ordinal_bijection :
    (∀ (b : StdoutLoggerBuilder) (l : LogLevel),
      ((b.LogLevel l).SetAsDefaultLogger).log_level = some l) ∧
    LogLevel.ordinal .Off = 0 ∧
    LogLevel.ordinal .Fatal = 1 ∧
    LogLevel.ordinal .Error = 2 ∧
    LogLevel.ordinal .Warn = 3 ∧
    LogLevel.ordinal .Info = 4 ∧
    LogLevel.ordinal .Debug = 5 ∧
    LogLevel.ordinal .Verbose = 6 ∧
    Function.Injective LogLevel.ordinal ∧
    (∀ l : LogLevel, LogLevel.ordinal l ≤ 6) ∧
    (∀ n : Fin 7, ∃ l : LogLevel, LogLevel.ordinal l = n.val) := by
  refine ⟨fun b l => rfl, rfl, rfl, rfl, rfl, rfl, rfl, rfl, ?_, ?_, ?_⟩
  · intro l1 l2 h
    cases l1 <;> cases l2 <;> simp_all [LogLevel.ordinal]
  · intro l
    cases l <;> simp [LogLevel.ordinal]
  · decide

/-- C6: repeated calls to the same setter overwrite the stored value; in
particular ShowModule(true) then ShowModule(false) then finalize delivers a
show_module pointer dereferencing to false and never to true, from any
starting builder state. -/
theorem C6_last_write_wins (b : StdoutLoggerBuilder) :
    (((b.ShowModule true).ShowModule
      false).SetAsDefaultLogger).show_module = some false ∧
    (((b.ShowModule true).ShowModule
      false).SetAsDefaultLogger).show_module ≠ some true ∧
    (∀ t u, ((b.Context t).Context u).context_ = some u) ∧
    (∀ v w, ((b.ShowModule v).ShowModule w).show_module_ = some w) ∧
    (∀ v w, ((b.ShowFile v).ShowFile w).show_file_ = some w) ∧
    (∀ v w, ((b.ShowLine v).ShowLine w).show_line_ = some w) ∧
    (∀ l m, ((b.LogLevel l).LogLevel m).log_level_ = some m) := by
  refine ⟨rfl, ?_, fun t u => rfl, fun v w => rfl, fun v w => rfl,
    fun v w => rfl, fun l m => rfl⟩
  simp [StdoutLoggerBuilder.SetAsDefaultLogger, StdoutLoggerBuilder.ShowModule]

/-- Claim C7 evidence: in the example program's call, the three toggle
pointers are non-null and dereference to true, the severity pointer is null,
and the context length is 4 with a non-null context pointer — but that
pointer is the address of the destroyed block-scoped local copy, which no
live storage backs during the call, so the pointer/length do not reference
valid bytes "ABCD" at call time: reading them is undefined. -/
theorem C7_example_scenario_dangling :
    exampleMainCall.context_ptr = some addr_value_local ∧
    exampleMainCall.context_size = 4 ∧
    exampleMainCall.show_module = some true ∧
    exampleMainCall.show_file = some true ∧
    exampleMainCall.show_line = some true ∧
    exampleMainCall.log_level = none ∧
    readMem (frameMem exampleMainBuilder) addr_value_local = none ∧
    receiverContextCopy (frameMem exampleMainBuilder) exampleMainCall =
      CopyResult.undefinedRead := by
  refine ⟨rfl, rfl, rfl, rfl, rfl, rfl, rfl, rfl⟩

/-- Auxiliary: the fallible-access translation of `SetAsDefaultLogger` never
reaches the `bad_optional_access` branch, because every `.value()` in the
source is guarded by a check that the optional is engaged. -/
theorem setAsDefaultLoggerE_ok (b : StdoutLoggerBuilder) :
    b.SetAsDefaultLoggerE = Except.ok b.SetAsDefaultLogger := by
  obtain ⟨c, sm, sf, sl, ll⟩ := b
  cases c <;> cases sm <;> cases sf <;> cases sl <;> cases ll <;> rfl

/-- C8: every sequence of setter calls followed by SetAsDefaultLogger raises
no error to the caller: each setter is a total state update that always
yields a builder, and finalization — with every `.value()` access modelled as
fallible — always returns ok, never an error, whatever the builder state. -/
theorem C8_operations_never_fail (ops : List SetterOp) (b : StdoutLoggerBuilder) :
    (∃ b', runSetters ops b = b') ∧
    (runSetters ops b).SetAsDefaultLoggerE =
      Except.ok ((runSetters ops b).SetAsDefaultLogger) :=
  ⟨⟨_, rfl⟩, setAsDefaultLoggerE_ok _⟩

/-- C9: SetAsDefaultLogger leaves the builder's stored configuration intact —
the threaded `this` state it returns equals its input, field by field — so a
second SetAsDefaultLogger on the same builder makes a boundary call identical
to the first. -/
theorem C9_finalize_preserves_builder (b : StdoutLoggerBuilder) :
    (b.SetAsDefaultLoggerSt).1 = b ∧
    (b.SetAsDefaultLoggerSt).1.context_ = b.context_ ∧
    (b.SetAsDefaultLoggerSt).1.show_module_ = b.show_module_ ∧
    (b.SetAsDefaultLoggerSt).1.show_file_ = b.show_file_ ∧
    (b.SetAsDefaultLoggerSt).1.show_line_ = b.show_line_ ∧
    (b.SetAsDefaultLoggerSt).1.log_level_ = b.log_level_ ∧
    (b.SetAsDefaultLoggerSt).2 = b.SetAsDefaultLogger ∧
    ((b.SetAsDefaultLoggerSt).1.SetAsDefaultLoggerSt).2 =
      (b.SetAsDefaultLoggerSt).2 :=
  ⟨rfl, rfl, rfl, rfl, rfl, rfl, rfl, rfl⟩

/-- C10: a context set to the empty text is encoded as a non-null pointer
with length 0, while an unset context is encoded as a null pointer with
length 0 — so the two cases differ in pointer nullness only, never in the
length field; with length 0 the receiver copies zero bytes, so the copy is
well-defined (the empty sequence) despite the dangling context pointer. -/
theorem C10_empty_context_encoding (b b2 : StdoutLoggerBuilder)
    (h : b.context_ = some []) (h2 : b2.context_ = none) :
    (b.SetAsDefaultLogger).context_ptr = some addr_value_local ∧
    (b.SetAsDefaultLogger).context_ptr ≠ none ∧
    (b.SetAsDefaultLogger).context_size = 0 ∧
    receiverContextCopy (frameMem b) (b.SetAsDefaultLogger) =
      CopyResult.copied [] ∧
    (b2.SetAsDefaultLogger).context_ptr = none ∧
    (b2.SetAsDefaultLogger).context_size = 0 ∧
    receiverContextCopy (frameMem b2) (b2.SetAsDefaultLogger) =
      CopyResult.noContext := by
  refine ⟨?_, ?_, ?_, ?_, ?_, ?_, ?_⟩ <;>
    simp [StdoutLoggerBuilder.SetAsDefaultLogger, receiverContextCopy, h, h2]

/-- Claim C10 witness: the empty-context encoding instantiated at the
concrete builders Context("") on a fresh builder, and the fresh builder. -/
theorem C10_empty_context_encoding_witness :
    (StdoutLoggerBuilder.new.Context []).context_ = some [] ∧
    StdoutLoggerBuilder.new.context_ = none ∧
    (((StdoutLoggerBuilder.new.Context
      []).SetAsDefaultLogger).context_ptr = some addr_value_local ∧
    ((StdoutLoggerBuilder.new.Context
      []).SetAsDefaultLogger).context_ptr ≠ none ∧
    ((StdoutLoggerBuilder.new.Context
      []).SetAsDefaultLogger).context_size = 0 ∧
    receiverContextCopy (frameMem (StdoutLoggerBuilder.new.Context []))
      ((StdoutLoggerBuilder.new.Context []).SetAsDefaultLogger) =
      CopyResult.copied [] ∧
    (StdoutLoggerBuilder.new.SetAsDefaultLogger).context_ptr = none ∧
    (StdoutLoggerBuilder.new.SetAsDefaultLogger).context_size = 0 ∧
    receiverContextCopy (frameMem StdoutLoggerBuilder.new)
      StdoutLoggerBuilder.new.SetAsDefaultLogger = CopyResult.noContext) :=
  ⟨rfl, rfl, C10_empty_context_encoding _ _ rfl rfl⟩

end StdoutLoggerInit
